import Mathlib

/-!
Verification development for the Hackathon-Agent backend.

Shallow embedding of the parts of the backend that the specification's
claims are about:

* `app/api/v1/endpoints/chat.py` — intent classification
  (`_detect_context_type`) and context aggregation (`_gather_context`);
* `app/services/smart_vertex_service.py` — the resilient generation
  facade (`VertexService`) with its `fallback_active` flag, the
  deterministic fallback embedding generator, and `health_check`;
* `app/services/elastic_service.py` — `hybrid_search` with its
  lexical-retry / empty-result degradation;
* `app/api/v1/endpoints/webhook.py` — signature verification and the
  push / PR / issue event processors;
* `app/api/v1/endpoints/search.py` — the multi-index merge / sort /
  truncate search endpoint.

External collaborators (the real Vertex backend, the Elasticsearch
client, Python's `random` module and `hash`, `hmac`) are modelled as
explicit parameters: per-call outcomes of the real backend are passed
in as values of `PyResult`, the PRNG is an explicit seeded state, and
the hash / HMAC functions are universally quantified.
-/

/-- Outcome of one call into an external Python collaborator: either the
call raised an exception or it returned a value. -/
inductive PyResult (α : Type) where
  | raised
  | returns (val : α)
deriving DecidableEq, Repr

/-- Python `str.lower()` (the keyword lists in the source are ASCII).
Written over the character list so that it evaluates by kernel
reduction. -/
def pyLower (s : String) : String := ⟨s.data.map Char.toLower⟩

/-- Substring test on character lists: does `needle` occur contiguously
inside the second list?  Implements Python's `needle in haystack`. -/
def charListSub (needle : List Char) : List Char → Bool
  | [] => needle.isEmpty
  | c :: rest => needle.isPrefixOf (c :: rest) || charListSub needle rest

/-- Python's `needle in haystack` on strings. -/
def pyIn (needle haystack : String) : Bool :=
  charListSub needle.toList haystack.toList

/-- Python truthiness of an `Optional[str]`: `None` and `""` are falsy. -/
def pyTruthyStr : Option String → Bool
  | none => false
  | some s => !s.isEmpty

/-- Python `opt or dflt` for an `Optional[str]`. -/
def pyOrStr (opt : Option String) (dflt : String) : String :=
  if pyTruthyStr opt then opt.getD "" else dflt

/-! ## Intent classifier — `_detect_context_type` in `chat.py` -/

/-- Idea-validation keywords from `_detect_context_type`. -/
def idea_keywords : List String :=
  ["idea", "project", "validate", "original", "similar", "unique", "concept"]

/-- Progress-tracking keywords from `_detect_context_type`. -/
def progress_keywords : List String :=
  ["progress", "status", "commit", "github", "development", "team", "accomplished"]

/-- Documentation keywords from `_detect_context_type`. -/
def documentation_keywords : List String :=
  ["how to", "documentation", "rules", "guidelines", "google cloud", "elastic", "vertex"]

/-- Python `any(keyword in message_lower for keyword in kws)`. -/
def anyKeywordIn (message_lower : String) (kws : List String) : Bool :=
  kws.any (fun k => pyIn k message_lower)

/-- `_detect_context_type(message)` from `chat.py`: fixed-priority
keyword routing over the lowercased message. -/
def detect_context_type (message : String) : String :=
  let message_lower := pyLower message
  if anyKeywordIn message_lower idea_keywords then "idea_validation"
  else if anyKeywordIn message_lower progress_keywords then "progress"
  else if anyKeywordIn message_lower documentation_keywords then "documentation"
  else "general"

/-! ## Python `random` module state and the fallback embedding generator

`VertexService.generate_embeddings` (fallback path) does, per text:
`random.seed(hash(text) % 10000)` followed by 768 calls to
`random.uniform(-1, 1)`.  The module-level PRNG is modelled as a state
`(seedVal, drawCount)`: `seed` resets it, and the value of the `i`-th
draw after seeding with `s` is `draw s i` for a universally quantified
draw function (standing in for the Mersenne-Twister stream; no theorem
below depends on its values).  `hash` is likewise a universally
quantified `pyhash : String → Int` — one fixed hashing scheme. -/

/-- State of Python's module-level `random` PRNG: the last seed and how
many draws have been made since seeding. -/
structure PyRandomState where
  seedVal : Nat
  drawCount : Nat
deriving DecidableEq, Repr

/-- `random.seed(n)`. -/
def pyRandomSeed (n : Nat) : PyRandomState := ⟨n, 0⟩

/-- One `random.uniform(-1, 1)` call: the drawn value and the advanced
PRNG state. -/
def pyUniform (draw : Nat → Nat → Int) (g : PyRandomState) : Int × PyRandomState :=
  (draw g.seedVal g.drawCount, ⟨g.seedVal, g.drawCount + 1⟩)

/-- `n` successive `random.uniform` draws. -/
def drawMany (draw : Nat → Nat → Int) (g : PyRandomState) : Nat → List Int × PyRandomState
  | 0 => ([], g)
  | n + 1 =>
    let vg := pyUniform draw g
    let rest := drawMany draw vg.2 n
    (vg.1 :: rest.1, rest.2)

/-- `self.embedding_dim` in `smart_vertex_service.py`. -/
def embedding_dim : Nat := 768

/-- `hash(text) % 10000` (Python `%` with a positive modulus, matching
`Int.emod`'s nonnegative result). -/
def pySeedOf (pyhash : String → Int) (text : String) : Nat :=
  ((pyhash text) % (10000 : Int)).toNat

/-- The fallback branch of `VertexService.generate_embeddings`: for each
text, reseed the module PRNG from the text's hash and draw 768 values.
Threads the module-level PRNG state explicitly. -/
def generate_embeddings_fallback (pyhash : String → Int) (draw : Nat → Nat → Int) :
    List String → PyRandomState → List (List Int) × PyRandomState
  | [], g => ([], g)
  | t :: ts, _g =>
    let g1 := pyRandomSeed (pySeedOf pyhash t)
    let vg := drawMany draw g1 embedding_dim
    let rest := generate_embeddings_fallback pyhash draw ts vg.2
    (vg.1 :: rest.1, rest.2)

/-- Closed form of one fallback embedding vector: the 768 draws that
follow seeding with the text's hash. -/
def embeddingOf (pyhash : String → Int) (draw : Nat → Nat → Int) (text : String) : List Int :=
  (List.range embedding_dim).map (fun i => draw (pySeedOf pyhash text) i)

/-! ## Resilient generation facade — `VertexService` in
`smart_vertex_service.py` -/

/-- Facade state: whether the real Vertex backend was constructed
(`self.real_service is not None`) and the `self.fallback_active` flag. -/
structure FacadeState where
  hasRealService : Bool
  fallbackActive : Bool
deriving DecidableEq, Repr

/-- The routing categories of `_generate_fallback_response`.  The canned
template bodies returned by the source are abstracted to their category
tag; every claim below concerns which backend serves a call, not the
template text. -/
inductive FallbackCategory where
  | ideaValidation
  | documentation
  | progress
  | presentation
  | general
deriving DecidableEq, Repr

/-- Idea-validation routing keywords in `_generate_fallback_response`. -/
def fb_idea_keywords : List String := ["idea", "validate", "project", "build", "original"]

/-- Documentation routing keywords in `_generate_fallback_response`. -/
def fb_doc_keywords : List String := ["how", "what", "elastic", "search", "implement", "vertex"]

/-- Progress routing keywords in `_generate_fallback_response`. -/
def fb_progress_keywords : List String := ["progress", "commit", "github", "repository"]

/-- Presentation routing keywords in `_generate_fallback_response`. -/
def fb_presentation_keywords : List String := ["pitch", "presentation", "demo", "slide"]

/-- `VertexService._generate_fallback_response`: fixed-priority keyword
routing of the prompt to a canned-response category. -/
def generate_fallback_response (prompt : String) : FallbackCategory :=
  let prompt_lower := pyLower prompt
  if anyKeywordIn prompt_lower fb_idea_keywords then .ideaValidation
  else if anyKeywordIn prompt_lower fb_doc_keywords then .documentation
  else if anyKeywordIn prompt_lower fb_progress_keywords then .progress
  else if anyKeywordIn prompt_lower fb_presentation_keywords then .presentation
  else .general

/-- Value returned by `generate_response`: either the real backend's
text or a fallback canned response (by category). -/
inductive GenReturn where
  | fromReal (text : String)
  | fromFallback (category : FallbackCategory)
deriving DecidableEq, Repr

/-- `VertexService.generate_response`.  `realOutcome` is what
`self.real_service.generate_response(...)` would do on this call.
Returns (value, new facade state, whether the real backend was
invoked).  Mirrors the source: the real path runs only when
`self.real_service and not self.fallback_active`; a returned text is
accepted iff `response and len(response) > 10`; only an exception sets
`fallback_active = True`. -/
def generate_response (s : FacadeState) (realOutcome : PyResult String) (prompt : String) :
    GenReturn × FacadeState × Bool :=
  if s.hasRealService && !s.fallbackActive then
    match realOutcome with
    | .returns text =>
      if 10 < text.length then (.fromReal text, s, true)
      else (.fromFallback (generate_fallback_response prompt), s, true)
    | .raised => (.fromFallback (generate_fallback_response prompt), ⟨s.hasRealService, true⟩, true)
  else
    (.fromFallback (generate_fallback_response prompt), s, false)

/-- Value returned by `generate_embeddings`. -/
inductive EmbReturn where
  | fromReal (vecs : List (List Int))
  | fromFallback (vecs : List (List Int))
deriving DecidableEq, Repr

/-- `VertexService.generate_embeddings`.  A real result is accepted iff
the returned list of vectors is non-empty (`embeddings and
len(embeddings) > 0`); only an exception sets `fallback_active`.
Returns (value, new facade state, new PRNG state, real invoked). -/
def generate_embeddings (pyhash : String → Int) (draw : Nat → Nat → Int)
    (s : FacadeState) (realOutcome : PyResult (List (List Int)))
    (texts : List String) (g : PyRandomState) :
    EmbReturn × FacadeState × PyRandomState × Bool :=
  if s.hasRealService && !s.fallbackActive then
    match realOutcome with
    | .returns embs =>
      if !embs.isEmpty then (.fromReal embs, s, g, true)
      else
        let fb := generate_embeddings_fallback pyhash draw texts g
        (.fromFallback fb.1, s, fb.2, true)
    | .raised =>
      let fb := generate_embeddings_fallback pyhash draw texts g
      (.fromFallback fb.1, ⟨s.hasRealService, true⟩, fb.2, true)
  else
    let fb := generate_embeddings_fallback pyhash draw texts g
    (.fromFallback fb.1, s, fb.2, false)

/-- Value returned by `generate_single_embedding`. -/
inductive SingleEmbReturn where
  | fromReal (vec : List Int)
  | fromFallback (vec : List Int)
deriving DecidableEq, Repr

/-- Project `generate_embeddings`'s return value through `embeddings[0]`
as `generate_single_embedding`'s fallback path does. -/
def firstEmbedding : EmbReturn → SingleEmbReturn
  | .fromReal vs => .fromReal (vs.headD [])
  | .fromFallback vs => .fromFallback (vs.headD [])

/-- `VertexService.generate_single_embedding`.  `singleOutcome` is the
outcome of `self.real_service.generate_single_embedding(text)`;
`nestedOutcome` is the outcome the real backend would produce for the
nested `self.generate_embeddings([text])` call that the fallback line
performs (the nested call re-checks the flag, so in the degenerate
no-exception path it may hit the real backend again).  Returns
(value, state, PRNG state, real invoked by the single probe, real
invoked by the nested call). -/
def generate_single_embedding (pyhash : String → Int) (draw : Nat → Nat → Int)
    (s : FacadeState) (singleOutcome : PyResult (List Int))
    (nestedOutcome : PyResult (List (List Int))) (text : String) (g : PyRandomState) :
    SingleEmbReturn × FacadeState × PyRandomState × Bool × Bool :=
  if s.hasRealService && !s.fallbackActive then
    match singleOutcome with
    | .returns v =>
      if !v.isEmpty then (.fromReal v, s, g, true, false)
      else
        let r := generate_embeddings pyhash draw s nestedOutcome [text] g
        (firstEmbedding r.1, r.2.1, r.2.2.1, true, r.2.2.2)
    | .raised =>
      let r := generate_embeddings pyhash draw ⟨s.hasRealService, true⟩ nestedOutcome [text] g
      (firstEmbedding r.1, r.2.1, r.2.2.1, true, r.2.2.2)
  else
    let r := generate_embeddings pyhash draw s nestedOutcome [text] g
    (firstEmbedding r.1, r.2.1, r.2.2.1, false, r.2.2.2)

/-- `VertexService.health_check`.  `probe` is the outcome of
`self.real_service.health_check()` (consulted only when the real
service exists).  Returns (result, new state): the result is always
`true`, and the flag is rewritten on every call — cleared only by a
successful probe. -/
def health_check (s : FacadeState) (probe : PyResult Bool) : Bool × FacadeState :=
  if s.hasRealService then
    match probe with
    | .returns true => (true, ⟨s.hasRealService, false⟩)
    | .returns false => (true, ⟨s.hasRealService, true⟩)
    | .raised => (true, ⟨s.hasRealService, true⟩)
  else (true, ⟨s.hasRealService, true⟩)

/-! ## Facade call traces -/

/-- Combined mutable state of one `VertexService` instance plus the
module-level PRNG. -/
structure MachineState where
  facade : FacadeState
  rng : PyRandomState
deriving DecidableEq, Repr

/-- One call into the facade, carrying the outcome(s) the real backend
would produce for that call. -/
inductive FacadeOp where
  | opGenerateResponse (realOutcome : PyResult String) (prompt : String)
  | opGenerateEmbeddings (realOutcome : PyResult (List (List Int))) (texts : List String)
  | opGenerateSingle (singleOutcome : PyResult (List Int))
      (nestedOutcome : PyResult (List (List Int))) (text : String)
  | opHealthCheck (probe : PyResult Bool)
deriving DecidableEq, Repr

/-- Which backend served a call (health checks are tagged separately). -/
inductive ServedBy where
  | real
  | fallback
  | health
deriving DecidableEq, Repr

/-- Is this op one of the three generation/embedding calls? -/
def isGenerationOp : FacadeOp → Bool
  | .opHealthCheck _ => false
  | _ => true

/-- Tag a `GenReturn` by serving backend. -/
def genServedBy : GenReturn → ServedBy
  | .fromReal _ => .real
  | .fromFallback _ => .fallback

/-- Tag an `EmbReturn` by serving backend. -/
def embServedBy : EmbReturn → ServedBy
  | .fromReal _ => .real
  | .fromFallback _ => .fallback

/-- Tag a `SingleEmbReturn` by serving backend. -/
def singleServedBy : SingleEmbReturn → ServedBy
  | .fromReal _ => .real
  | .fromFallback _ => .fallback

/-- Execute one facade call.  Returns the new machine state, whether the
real backend was invoked during the call, and which backend served it. -/
def facadeStep (pyhash : String → Int) (draw : Nat → Nat → Int)
    (ms : MachineState) (op : FacadeOp) : MachineState × Bool × ServedBy :=
  match op with
  | .opGenerateResponse oc prompt =>
    let r := generate_response ms.facade oc prompt
    (⟨r.2.1, ms.rng⟩, r.2.2, genServedBy r.1)
  | .opGenerateEmbeddings oc texts =>
    let r := generate_embeddings pyhash draw ms.facade oc texts ms.rng
    (⟨r.2.1, r.2.2.1⟩, r.2.2.2, embServedBy r.1)
  | .opGenerateSingle oc1 oc2 text =>
    let r := generate_single_embedding pyhash draw ms.facade oc1 oc2 text ms.rng
    (⟨r.2.1, r.2.2.1⟩, r.2.2.2.1 || r.2.2.2.2, singleServedBy r.1)
  | .opHealthCheck probe =>
    let r := health_check ms.facade probe
    (⟨r.2, ms.rng⟩, ms.facade.hasRealService, .health)

/-- Run a sequence of facade calls, logging each op with its
real-invocation flag and serving backend. -/
def facadeRun (pyhash : String → Int) (draw : Nat → Nat → Int)
    (ms : MachineState) : List FacadeOp → MachineState × List (FacadeOp × Bool × ServedBy)
  | [] => (ms, [])
  | op :: ops =>
    let st := facadeStep pyhash draw ms op
    let rest := facadeRun pyhash draw st.1 ops
    (rest.1, (op, st.2) :: rest.2)

/-! ## Hybrid search — `ElasticService.hybrid_search` in
`elastic_service.py` -/

/-- One Elasticsearch hit, kept opaque apart from an id and a score
(`hybrid_search` passes hits through untouched). -/
structure ESHit where
  hitId : String
  score : Int
deriving DecidableEq, Repr

/-- The `response["hits"]` block of an Elasticsearch reply:
`response["hits"]["total"]["value"]` may be absent (the source guards
the primary path with `"total" in response["hits"]`), and
`response["hits"]["max_score"]` may be null. -/
structure ESHitsBlock where
  hits : List ESHit
  totalValue : Option Nat
  maxScore : Option Int
deriving DecidableEq, Repr

/-- The four request bodies `hybrid_search` can build, by presence of
query text and vector (Python truthiness on both). -/
inductive SearchBody where
  | hybridBody (size : Nat) (query : String) (fields : List String)
      (vectorField : String) (vector : List Int)
  | knnBody (size : Nat) (vectorField : String) (vector : List Int)
  | lexicalBody (size : Nat) (query : String) (fields : List String) (vectorField : String)
  | matchAllBody (size : Nat) (vectorField : String)
deriving DecidableEq, Repr

/-- The dict `hybrid_search` returns: hits, total, max score. -/
structure HybridResult where
  hits : List ESHit
  total : Nat
  maxScore : Option Int
deriving DecidableEq, Repr

/-- Default `text_fields` in `hybrid_search`. -/
def default_text_fields : List String := ["title", "description", "content"]

/-- Python truthiness of the `vector_query` argument (`None` or the
empty list are falsy). -/
def pyTruthyVec : Option (List Int) → Bool
  | none => false
  | some v => !v.isEmpty

/-- The request body chosen by `hybrid_search`'s if/elif chain. -/
def primaryBody (query : String) (vectorField : String) (fields : List String)
    (size : Nat) (vectorQuery : Option (List Int)) : SearchBody :=
  if !query.isEmpty && pyTruthyVec vectorQuery then
    .hybridBody size query fields vectorField (vectorQuery.getD [])
  else if pyTruthyVec vectorQuery then
    .knnBody size vectorField (vectorQuery.getD [])
  else if !query.isEmpty then
    .lexicalBody size query fields vectorField
  else
    .matchAllBody size vectorField

/-- `ElasticService.hybrid_search`.  `backend` is
`self.client.search`, which may raise.  Returns the result dict and
the list of backend calls made, in order.  The outer `except` retries
once with a pure lexical `multi_match` over the same query text and
fields; any failure inside the retry (including a missing
`total` key in the retry's reply, which the retry path reads
unguarded) degrades to the empty result. -/
def hybrid_search (backend : SearchBody → PyResult ESHitsBlock)
    (query : String) (vectorField : String) (textFields : Option (List String))
    (size : Nat) (vectorQuery : Option (List Int)) : HybridResult × List SearchBody :=
  let fields := textFields.getD default_text_fields
  let body := primaryBody query vectorField fields size vectorQuery
  match backend body with
  | .returns blk =>
    (⟨blk.hits, blk.totalValue.getD blk.hits.length, blk.maxScore⟩, [body])
  | .raised =>
    let fb := SearchBody.lexicalBody size query fields vectorField
    match backend fb with
    | .returns blk =>
      match blk.totalValue with
      | some t => (⟨blk.hits, t, blk.maxScore⟩, [body, fb])
      | none => (⟨[], 0, some 0⟩, [body, fb])
    | .raised => (⟨[], 0, some 0⟩, [body, fb])

/-! ## Context aggregation — `_gather_context` in `chat.py`

The three retrieval steps go through service wrappers
(`ElasticService.search_documentation`,
`ElasticService.search_devpost_projects`,
`GitHubService.get_repository_activity`) that each catch backend
errors internally and return an empty list; the per-step outcomes are
passed in as `PyResult` values. -/

/-- A documentation hit as shaped by `search_documentation`. -/
structure DocHit where
  title : String
  content : String
  url : String
  sectionName : String
  sourceName : String
  score : Int
deriving DecidableEq, Repr

/-- A Devpost project hit as shaped by `search_devpost_projects`. -/
structure ProjectHit where
  title : String
  description : String
  url : String
  technologies : List String
  category : String
  year : String
  score : Int
deriving DecidableEq, Repr

/-- One item of `get_repository_activity`'s result. -/
structure ActivityEntry where
  atype : String
  amessage : String
deriving DecidableEq, Repr

/-- One provenance record appended to `context_data["sources"]`. -/
structure SourceRecord where
  stype : String
  title : String
  excerpt : String
  url : String
  score : Int
deriving DecidableEq, Repr

/-- Per-request outcomes of the three retrieval backends. -/
structure GatherBackends where
  docsOutcome : PyResult (List DocHit)
  projectsOutcome : PyResult (List ProjectHit)
  activityOutcome : PyResult (List ActivityEntry)

/-- `ElasticService.search_documentation`: backend errors are caught
inside the service and yield an empty list. -/
def search_documentation (outcome : PyResult (List DocHit)) : List DocHit :=
  match outcome with
  | .returns ds => ds
  | .raised => []

/-- `ElasticService.search_devpost_projects`: backend errors are caught
inside the service and yield an empty list. -/
def search_devpost_projects (outcome : PyResult (List ProjectHit)) : List ProjectHit :=
  match outcome with
  | .returns ps => ps
  | .raised => []

/-- `GitHubService.get_repository_activity`: errors are caught inside
the service and yield an empty list. -/
def get_repository_activity (outcome : PyResult (List ActivityEntry)) : List ActivityEntry :=
  match outcome with
  | .returns xs => xs
  | .raised => []

/-- The `context_data` dict built by `_gather_context`. -/
structure ContextBundle where
  formattedContext : String
  sources : List SourceRecord
  contextType : String
deriving DecidableEq, Repr

/-- Which retrieval steps `_gather_context` actually performed. -/
inductive GatherCall where
  | docsSearch
  | projectsSearch
  | activityFetch
deriving DecidableEq, Repr

/-- The provenance record `_gather_context` appends per documentation
hit (content excerpt truncated to 300 characters). -/
def mkDocSource (d : DocHit) : SourceRecord :=
  ⟨"documentation", d.title, d.content.take 300 ++ "...", d.url, d.score⟩

/-- The provenance record `_gather_context` appends per Devpost project
(description excerpt truncated to 200 characters). -/
def mkProjectSource (p : ProjectHit) : SourceRecord :=
  ⟨"devpost_project", p.title, p.description.take 200 ++ "...", p.url, p.score⟩

/-- The documentation block appended to `formatted_context` (decorative
glyphs elided; per-hit content truncated to 400 characters as in the
source). -/
def renderDocBlock (docs : List DocHit) : String :=
  "Relevant Documentation:\n" ++
    String.join (docs.map (fun d =>
      d.title ++ " (Source: " ++ d.sourceName ++ ")\n" ++
        d.content.take 400 ++ "...\n" ++ d.url ++ "\n\n"))

/-- The similar-projects block appended to `formatted_context`
(description truncated to 300 characters as in the source). -/
def renderProjectBlock (projects : List ProjectHit) : String :=
  "\nSimilar Hackathon Projects:\n" ++
    String.join (projects.map (fun p =>
      p.title ++ " (" ++ p.year ++ ")\n" ++ p.description.take 300 ++ "...\n" ++
        String.intercalate ", " p.technologies ++ "\n" ++ p.url ++ "\n\n"))

/-- The GitHub-activity block appended to `formatted_context` (top 5
items, messages truncated to 100 characters as in the source). -/
def renderActivityBlock (activity : List ActivityEntry) : String :=
  "Recent GitHub Activity:\n" ++
    String.join ((activity.take 5).map (fun a =>
      "- " ++ a.atype ++ ": " ++ a.amessage.take 100 ++ "...\n"))

/-- `_gather_context(message, embedding, context_type, repo_url, ...)`.
Returns the bundle and the ordered list of retrieval steps performed.
The effective context type is `context_type or
_detect_context_type(message)`; documentation is always searched;
projects only for `idea_validation` / `inspiration`; activity only for
`progress` with a truthy `repo_url`.  Empty step results contribute
nothing (the source guards each block append with a non-empty check). -/
def gather_context (message : String) (contextTypeArg : Option String)
    (repoUrl : Option String) (bk : GatherBackends) : ContextBundle × List GatherCall :=
  let ct := pyOrStr contextTypeArg (detect_context_type message)
  let docs := search_documentation bk.docsOutcome
  let b1 : ContextBundle :=
    if !docs.isEmpty then ⟨renderDocBlock docs, docs.map mkDocSource, ct⟩
    else ⟨"", [], ct⟩
  let step2 : ContextBundle × List GatherCall :=
    if ct == "idea_validation" || ct == "inspiration" then
      let projects := search_devpost_projects bk.projectsOutcome
      (if !projects.isEmpty then
        ⟨b1.formattedContext ++ renderProjectBlock projects,
          b1.sources ++ projects.map mkProjectSource, ct⟩
       else b1,
       [GatherCall.docsSearch, GatherCall.projectsSearch])
    else (b1, [GatherCall.docsSearch])
  let step3 : ContextBundle × List GatherCall :=
    if ct == "progress" && pyTruthyStr repoUrl then
      let activity := get_repository_activity bk.activityOutcome
      (if !activity.isEmpty then
        ⟨step2.1.formattedContext ++ renderActivityBlock activity, step2.1.sources, ct⟩
       else step2.1,
       step2.2 ++ [GatherCall.activityFetch])
    else step2
  step3

/-! ## Webhook processing — `webhook.py` -/

/-- One commit object of a push payload (the fields
`_process_push_event` reads). -/
structure PushCommit where
  cid : String
  cmessage : String
  authorName : String
  authorEmail : String
  ctimestamp : String
  curl : String
  added : List String
  modified : List String
  removed : List String
deriving DecidableEq, Repr

/-- A push-event payload (the fields `_process_push_event` reads). -/
structure PushPayload where
  repoFullName : String
  repoHtmlUrl : String
  pusherName : String
  commits : List PushCommit
deriving DecidableEq, Repr

/-- The activity document `_process_push_event` builds per commit. -/
structure ActivityDoc where
  docId : String
  dtype : String
  repository : String
  repositoryUrl : String
  commitId : String
  dmessage : String
  author : String
  authorEmail : String
  dtimestamp : String
  durl : String
  addedFiles : List String
  modifiedFiles : List String
  removedFiles : List String
  totalChanges : Nat
  pusher : String
  eventType : String
  processedAt : String
deriving DecidableEq, Repr

/-- The `commit_data` dict built for one commit: id is
`"commit_" + commit["id"]`, `processed_at` is the hardcoded constant of
the source. -/
def mkCommitDoc (repoName repoUrl pusherName : String) (c : PushCommit) : ActivityDoc where
  docId := "commit_" ++ c.cid
  dtype := "commit"
  repository := repoName
  repositoryUrl := repoUrl
  commitId := c.cid
  dmessage := c.cmessage
  author := c.authorName
  authorEmail := c.authorEmail
  dtimestamp := c.ctimestamp
  durl := c.curl
  addedFiles := c.added
  modifiedFiles := c.modified
  removedFiles := c.removed
  totalChanges := c.added.length + c.modified.length + c.removed.length
  pusher := pusherName
  eventType := "push"
  processedAt := "2024-10-24T12:00:00Z"

/-- `_process_push_event`: the (doc id, document) pairs indexed into the
GitHub activity index, one per commit, in payload order. -/
def process_push_event (p : PushPayload) : List (String × ActivityDoc) :=
  p.commits.map (fun c =>
    ("commit_" ++ c.cid, mkCommitDoc p.repoFullName p.repoHtmlUrl p.pusherName c))

/-- The document id `_process_pr_event` uses: `"pr_" + pull_request["id"]`. -/
def pr_doc_id (prId : String) : String := "pr_" ++ prId

/-- The document id `_process_issue_event` uses: `"issue_" + issue["id"]`. -/
def issue_doc_id (issueId : String) : String := "issue_" ++ issueId

/-- A search index keyed by document id (the write path of
`ElasticService.index_document`, which upserts by id). -/
def upsertDoc (m : String → Option ActivityDoc) (entry : String × ActivityDoc) :
    String → Option ActivityDoc :=
  fun k => if k == entry.1 then some entry.2 else m k

/-- Apply a list of upserts in order. -/
def upsertAll (m : String → Option ActivityDoc) (entries : List (String × ActivityDoc)) :
    String → Option ActivityDoc :=
  entries.foldl upsertDoc m

/-- The last value written for key `k` by a list of upserts, if any. -/
def lastValueFor (entries : List (String × ActivityDoc)) (k : String) : Option ActivityDoc :=
  entries.foldl (fun acc e => if k == e.1 then some e.2 else acc) none

/-- HTTP error as raised by the endpoint (`HTTPException`). -/
structure HttpError where
  status : Nat
  detail : String
deriving DecidableEq, Repr

/-- The background tasks `github_webhook` can queue. -/
inductive QueuedTask where
  | pushTask
  | pullRequestTask
  | issueTask
deriving DecidableEq, Repr

/-- `hmac.compare_digest` on hex digest strings.  The source delegates
the comparison to this constant-time primitive; extensionally it is
string equality (its timing behaviour is outside the model). -/
def compare_digest (a b : String) : Bool := a == b

/-- `_verify_signature(payload_body, signature_header)`:  reject when
the header or the configured secret is missing/empty, otherwise
compare `"sha256=" + HMAC-SHA256(secret, body)` against the header
with `compare_digest`.  `hmacHex` is the (universally quantified)
hex-digest HMAC function. -/
def verify_signature (hmacHex : String → List Nat → String) (secret : Option String)
    (payloadBody : List Nat) (signatureHeader : Option String) : Bool :=
  if !pyTruthyStr signatureHeader || !pyTruthyStr secret then false
  else
    compare_digest ("sha256=" ++ hmacHex (secret.getD "") payloadBody)
      (signatureHeader.getD "")

/-- How the `try` block of `github_webhook` can end: raising an
`HTTPException`, raising some other exception (e.g. `json.loads`), or
returning normally with the queued background tasks. -/
inductive TryOutcome where
  | raisedHttp (e : HttpError)
  | raisedOther
  | normal (r : Option String × List QueuedTask)
deriving DecidableEq, Repr

/-- The body of `github_webhook`'s `try` block: raise
`HTTPException(401, "Invalid signature")` on a bad signature, raise on
a JSON parse failure (`parseOk = false`), otherwise queue the handler
matching the event-type header and return normally. -/
def github_webhook_inner (hmacHex : String → List Nat → String) (secret : Option String)
    (body : List Nat) (signatureHeader eventType : Option String) (parseOk : Bool) :
    TryOutcome :=
  if !verify_signature hmacHex secret body signatureHeader then
    .raisedHttp ⟨401, "Invalid signature"⟩
  else if !parseOk then
    .raisedOther
  else
    .normal (eventType,
      match eventType with
      | some "push" => [QueuedTask.pushTask]
      | some "pull_request" => [QueuedTask.pullRequestTask]
      | some "issues" => [QueuedTask.issueTask]
      | _ => [])

/-- `github_webhook` as observed by the client: the endpoint's
`except Exception` catches every exception escaping the `try` block —
including the endpoint's own `HTTPException(401)` — and re-raises
`HTTPException(500, "Webhook processing failed")`. -/
def github_webhook (hmacHex : String → List Nat → String) (secret : Option String)
    (body : List Nat) (signatureHeader eventType : Option String) (parseOk : Bool) :
    Except HttpError (Option String × List QueuedTask) :=
  match github_webhook_inner hmacHex secret body signatureHeader eventType parseOk with
  | .normal r => Except.ok r
  | .raisedHttp _ => Except.error ⟨500, "Webhook processing failed"⟩
  | .raisedOther => Except.error ⟨500, "Webhook processing failed"⟩

/-! ## Multi-index search — `search` in `search.py` -/

/-- One `SearchResult` of the search endpoint (the `metadata` dict,
which no claim touches, is elided). -/
structure SearchResultItem where
  rtitle : String
  rdescription : String
  rurl : String
  rscore : Int
  rsource : String
deriving DecidableEq, Repr

/-- A `SearchRequest`. -/
structure SearchRequestModel where
  reqQuery : String
  searchType : String
  reqIndex : Option String
  reqSize : Nat
deriving DecidableEq, Repr

/-- A `SearchResponse` (without the optional timing field). -/
structure SearchResponseModel where
  results : List SearchResultItem
  total : Nat
  respQuery : String
  respSearchType : String
deriving DecidableEq, Repr

/-- Shape one Devpost project as the endpoint does (`source="devpost"`). -/
def mkDevpostResult (p : ProjectHit) : SearchResultItem :=
  ⟨p.title, p.description, p.url, p.score, "devpost"⟩

/-- Shape one documentation hit as the endpoint does
(`source="documentation"`, description truncated to 300 characters). -/
def mkDocResult (d : DocHit) : SearchResultItem :=
  ⟨d.title, d.content.take 300 ++ "...", d.url, d.score, "documentation"⟩

/-- Descending-score order used for the final `sort(key=score,
reverse=True)`. -/
def scoreGe (a b : SearchResultItem) : Prop := b.rscore ≤ a.rscore

instance : DecidableRel scoreGe :=
  fun a b => inferInstanceAs (Decidable (b.rscore ≤ a.rscore))

instance : IsTotal SearchResultItem scoreGe :=
  ⟨fun a b => le_total b.rscore a.rscore⟩

instance : IsTrans SearchResultItem scoreGe :=
  ⟨fun _ _ _ h1 h2 => le_trans h2 h1⟩

/-- The per-index loop of the endpoint: each index contributes its
shaped results in order; a failing index is skipped (`continue`).
Outcomes model what the (internally error-catching) service calls for
that index produce. -/
def collect_index_results (devpostOutcome : PyResult (List ProjectHit))
    (docsOutcome : PyResult (List DocHit)) (indices : List String) : List SearchResultItem :=
  indices.foldl (fun acc idx =>
    if idx == "devpost_projects" then
      match devpostOutcome with
      | .returns ps => acc ++ ps.map mkDevpostResult
      | .raised => acc
    else if idx == "hackathon_docs" then
      match docsOutcome with
      | .returns ds => acc ++ ds.map mkDocResult
      | .raised => acc
    else acc) []

/-- The `search` endpoint: choose indices (both when `request.index` is
falsy), merge per-index results, sort by score descending with a
stable sort (Python's `list.sort` is stable; `List.insertionSort` with
this order is the same stable descending sort), truncate to
`request.size`, and report the pre-truncation merged count as `total`. -/
def search_endpoint (req : SearchRequestModel) (devpostOutcome : PyResult (List ProjectHit))
    (docsOutcome : PyResult (List DocHit)) : SearchResponseModel :=
  let indices :=
    if pyTruthyStr req.reqIndex then [req.reqIndex.getD ""]
    else ["devpost_projects", "hackathon_docs"]
  let allResults := collect_index_results devpostOutcome docsOutcome indices
  let sorted := List.insertionSort scoreGe allResults
  ⟨sorted.take req.reqSize, allResults.length, req.reqQuery, req.searchType⟩

/-! ## Concrete instances used by witnesses and counterexamples -/

/-- A search backend that raises on the combined query and answers the
pure lexical retry. -/
def demoSearchBackend : SearchBody → PyResult ESHitsBlock
  | .hybridBody _ _ _ _ _ => .raised
  | _ => .returns ⟨[⟨"h1", 3⟩], some 7, some 3⟩

/-- Retrieval outcomes with a raising documentation backend and one
Devpost project. -/
def demoProjectHit : ProjectHit :=
  ⟨"Recipe Wizard", "a recipe sharing app", "https://devpost.example/p1",
    ["python"], "web", "2024", 4⟩

/-- A documentation hit for the search-endpoint witness. -/
def demoDocHit : DocHit :=
  ⟨"Hybrid search guide", "combine bm25 and knn", "https://docs.example/d1",
    "search", "elastic", 9⟩

/-- Gather backends: documentation search raises, project search
returns one hit, activity fetch returns nothing. -/
def demoGatherBackends : GatherBackends :=
  ⟨.raised, .returns [demoProjectHit], .returns []⟩

/-- First commit of the id-scheme counterexample payload: same
repository, event type and timestamp as the second, different sha. -/
def cexCommitA : PushCommit :=
  ⟨"aaa", "first", "alice", "alice at example", "2024-01-01T00:00:00Z",
    "https://example/c1", [], [], []⟩

/-- Second commit of the id-scheme counterexample payload. -/
def cexCommitB : PushCommit :=
  ⟨"bbb", "second", "bob", "bob at example", "2024-01-01T00:00:00Z",
    "https://example/c2", [], [], []⟩

/-- Push payload whose two commits agree on repository, event type and
timestamp but get different document ids. -/
def cexPushPayload : PushPayload :=
  ⟨"owner/repo", "https://example/repo", "alice", [cexCommitA, cexCommitB]⟩

/-- A concrete stand-in HMAC hex-digest function for the webhook
theorems (its values are irrelevant beyond being fixed). -/
def demoHmacHex : String → List Nat → String := fun _ _ => "0abc"

/-- A concrete raw request body. -/
def demoBody : List Nat := [1, 2, 3]

/-- A search request with no explicit index and size 1. -/
def demoSearchReq : SearchRequestModel := ⟨"recipes", "hybrid", none, 1⟩

/-- A concrete stand-in for Python's string hash. -/
def demoPyhash : String → Int := fun _ => 42

/-- A concrete stand-in for the PRNG draw stream. -/
def demoDraw : Nat → Nat → Int := fun _ _ => 0

/-! ## Helper lemmas -/

/-- The draws after seeding are a pure function of the seed: `n` draws
from state `(s, c)` are `draw s c, …, draw s (c+n-1)`. -/
theorem drawMany_eq (draw : Nat → Nat → Int) (s : Nat) :
    ∀ (n c : Nat), drawMany draw ⟨s, c⟩ n =
      ((List.range n).map (fun i => draw s (c + i)), ⟨s, c + n⟩) := by
  intro n
  induction n with
  | zero => intro c; simp [drawMany]
  | succ n ih =>
    intro c
    simp only [drawMany, pyUniform]
    rw [ih (c + 1)]
    refine Prod.ext ?_ ?_
    · simp only [List.range_succ_eq_map, List.map_cons, List.map_map]
      refine congrArg₂ List.cons rfl (List.map_congr_left ?_)
      intro a _
      simp only [Function.comp_apply]
      exact congrArg (draw s) (by omega)
    · simp only []
      exact congrArg (PyRandomState.mk s) (by omega)

/-- The fallback embeddings are one `embeddingOf` vector per input
text, in order, independent of the incoming PRNG state. -/
theorem generate_embeddings_fallback_fst (pyhash : String → Int) (draw : Nat → Nat → Int) :
    ∀ (texts : List String) (g : PyRandomState),
      (generate_embeddings_fallback pyhash draw texts g).1 =
        texts.map (embeddingOf pyhash draw) := by
  intro texts
  induction texts with
  | nil => intro g; simp [generate_embeddings_fallback]
  | cons t ts ih =>
    intro g
    simp only [generate_embeddings_fallback, pyRandomSeed]
    rw [drawMany_eq]
    simp [ih, embeddingOf]

/-- Folding the last-writer scan from an arbitrary accumulator. -/
theorem lastValueFor_foldl_init (k : String) :
    ∀ (es : List (String × ActivityDoc)) (init : Option ActivityDoc),
      es.foldl (fun acc e => if k == e.1 then some e.2 else acc) init =
        (match lastValueFor es k with
          | some v => some v
          | none => init) := by
  intro es
  induction es with
  | nil => intro init; simp [lastValueFor]
  | cons e es ih =>
    intro init
    have hcons : lastValueFor (e :: es) k =
        (match lastValueFor es k with
          | some v => some v
          | none => if k == e.1 then some e.2 else none) := by
      simp only [lastValueFor, List.foldl_cons]
      exact ih _
    simp only [List.foldl_cons]
    rw [ih (if k == e.1 then some e.2 else init), hcons]
    rcases h : lastValueFor es k with _ | v
    · by_cases hk : k == e.1 <;> simp [hk]
    · simp

/-- `upsertAll` acts at each key as "last write wins, else the prior
index". -/
theorem upsertAll_apply (k : String) :
    ∀ (es : List (String × ActivityDoc)) (m : String → Option ActivityDoc),
      upsertAll m es k =
        (match lastValueFor es k with
          | some v => some v
          | none => m k) := by
  intro es
  induction es with
  | nil => intro m; simp [upsertAll, lastValueFor]
  | cons e es ih =>
    intro m
    have hcons : lastValueFor (e :: es) k =
        (match lastValueFor es k with
          | some v => some v
          | none => if k == e.1 then some e.2 else none) := by
      simp only [lastValueFor, List.foldl_cons]
      exact lastValueFor_foldl_init k es _
    simp only [upsertAll, List.foldl_cons] at *
    rw [ih (upsertDoc m e), hcons]
    rcases h : lastValueFor es k with _ | v
    · by_cases hk : k == e.1 <;> simp [hk, upsertDoc]
    · simp

/-- Replaying the same batch of keyed upserts leaves the index
unchanged. -/
theorem upsertAll_idem (es : List (String × ActivityDoc))
    (m : String → Option ActivityDoc) (k : String) :
    upsertAll (upsertAll m es) es k = upsertAll m es k := by
  rw [upsertAll_apply, upsertAll_apply]
  rcases h : lastValueFor es k with _ | v <;> simp [h]

/-! ## Claims -/

/-- C4: the intent classifier is a pure function of the message text,
evaluated in fixed priority order: idea-validation keywords first, then
progress, then documentation; the first matching category wins, no
match yields `general`; in particular a message matching both an
idea-validation and a progress keyword classifies as
`idea_validation`. -/
theorem detect_context_type_priority (message : String) :
    (anyKeywordIn (pyLower message) idea_keywords = true →
        detect_context_type message = "idea_validation") ∧
    ((anyKeywordIn (pyLower message) idea_keywords = true ∧
        anyKeywordIn (pyLower message) progress_keywords = true) →
        detect_context_type message = "idea_validation") ∧
    (anyKeywordIn (pyLower message) idea_keywords = false →
      anyKeywordIn (pyLower message) progress_keywords = true →
        detect_context_type message = "progress") ∧
    (anyKeywordIn (pyLower message) idea_keywords = false →
      anyKeywordIn (pyLower message) progress_keywords = false →
      anyKeywordIn (pyLower message) documentation_keywords = true →
        detect_context_type message = "documentation") ∧
    (anyKeywordIn (pyLower message) idea_keywords = false →
      anyKeywordIn (pyLower message) progress_keywords = false →
      anyKeywordIn (pyLower message) documentation_keywords = false →
        detect_context_type message = "general") := by
  refine ⟨?_, ?_, ?_, ?_, ?_⟩
  · intro h; simp [detect_context_type, h]
  · rintro ⟨h, _⟩; simp [detect_context_type, h]
  · intro h1 h2; simp [detect_context_type, h1, h2]
  · intro h1 h2 h3; simp [detect_context_type, h1, h2, h3]
  · intro h1 h2 h3; simp [detect_context_type, h1, h2, h3]

/-- C4 witness: a message with both an idea keyword and a progress
keyword classifies as idea validation. -/
theorem detect_context_type_priority_witness :
    detect_context_type "idea progress" = "idea_validation" :=
  (detect_context_type_priority "idea progress").2.1 ⟨rfl, rfl⟩

/-- C7: the fallback embedding provider is deterministic — for a fixed
hashing scheme the embeddings are a pure function of the input texts
(independent of the module PRNG state left by earlier calls, hence
identical across repeated calls), one vector per input text in input
order, each of length exactly 768. -/
theorem fallback_embeddings_deterministic (pyhash : String → Int) (draw : Nat → Nat → Int)
    (texts : List String) (g g' : PyRandomState) :
    (generate_embeddings_fallback pyhash draw texts g).1 =
      texts.map (embeddingOf pyhash draw) ∧
    (generate_embeddings_fallback pyhash draw texts g).1 =
      (generate_embeddings_fallback pyhash draw texts g').1 ∧
    (generate_embeddings_fallback pyhash draw texts g).1.length = texts.length ∧
    (∀ v ∈ (generate_embeddings_fallback pyhash draw texts g).1, v.length = 768) := by
  have h1 := generate_embeddings_fallback_fst pyhash draw texts g
  have h2 := generate_embeddings_fallback_fst pyhash draw texts g'
  refine ⟨h1, h1.trans h2.symm, ?_, ?_⟩
  · rw [h1]; simp
  · rw [h1]
    intro v hv
    obtain ⟨t, _, rfl⟩ := List.mem_map.1 hv
    simp [embeddingOf, embedding_dim]

/-- C10: `health_check` always returns `True` (the fallback backend
counts as healthy), rewrites `fallback_active` on every call, and
clears it exactly when the real backend exists and its probe succeeds
— an absent real backend or a failed/raising probe sets the flag. -/
theorem health_check_always_true_writes_flag (s : FacadeState) (probe : PyResult Bool) :
    (health_check s probe).1 = true ∧
    (health_check s probe).2.hasRealService = s.hasRealService ∧
    ((health_check s probe).2.fallbackActive = false ↔
      (s.hasRealService = true ∧ probe = PyResult.returns true)) := by
  rcases s with ⟨hr, fa⟩
  rcases probe with _ | b
  · cases hr <;> simp [health_check]
  · cases b <;> cases hr <;> simp [health_check]

/-- C6 (amended): a push event with N commits indexes exactly N
documents, keyed by the deterministic id `"commit_" + commit sha`
(entity ids `"pr_" + id` / `"issue_" + id` for PR/issue events), so
re-delivering the identical payload writes the same (id, document)
pairs and leaves the index unchanged. -/
theorem process_push_event_count_ids_idempotent (p : PushPayload)
    (m : String → Option ActivityDoc) :
    (process_push_event p).length = p.commits.length ∧
    (process_push_event p).map Prod.fst =
      p.commits.map (fun c => "commit_" ++ c.cid) ∧
    (∀ k, upsertAll (upsertAll m (process_push_event p)) (process_push_event p) k =
          upsertAll m (process_push_event p) k) ∧
    (∀ prId, pr_doc_id prId = "pr_" ++ prId) ∧
    (∀ issueId, issue_doc_id issueId = "issue_" ++ issueId) := by
  refine ⟨?_, ?_, ?_, fun _ => rfl, fun _ => rfl⟩
  · simp [process_push_event]
  · simp [process_push_event]
  · intro k; exact upsertAll_idem _ _ _

/-- C6 counterexample: the document id is not derived from repository +
event type + timestamp — this payload's two commits agree on all three
yet receive different ids (the id is `"commit_" + commit sha`). -/
theorem push_doc_id_not_function_of_repo_event_timestamp :
    ((process_push_event cexPushPayload).map (fun pr => pr.2.repository) =
        ["owner/repo", "owner/repo"]) ∧
    ((process_push_event cexPushPayload).map (fun pr => pr.2.eventType) =
        ["push", "push"]) ∧
    ((process_push_event cexPushPayload).map (fun pr => pr.2.dtimestamp) =
        ["2024-01-01T00:00:00Z", "2024-01-01T00:00:00Z"]) ∧
    ((process_push_event cexPushPayload).map Prod.fst =
        ["commit_aaa", "commit_bbb"]) ∧
    ("commit_aaa" : String) ≠ "commit_bbb" := by
  refine ⟨rfl, rfl, rfl, rfl, by decide⟩

/-- C8 (code bug): a request whose signature check fails is rejected
and never processed — no handler is queued — but the rejection reaches
the client as HTTP 500 "Webhook processing failed", not as the 401
unauthorized response the `try` block raises, because the endpoint's
catch-all `except Exception` swallows its own `HTTPException(401)`.
A valid signature is accepted and queues the matching handler. -/
theorem webhook_rejects_bad_signature_as_500 :
    (verify_signature demoHmacHex (some "secret") demoBody (some "sha256=wrong") = false) ∧
    (github_webhook_inner demoHmacHex (some "secret") demoBody (some "sha256=wrong")
        (some "push") true = TryOutcome.raisedHttp ⟨401, "Invalid signature"⟩) ∧
    (github_webhook demoHmacHex (some "secret") demoBody (some "sha256=wrong")
        (some "push") true = Except.error ⟨500, "Webhook processing failed"⟩) ∧
    (verify_signature demoHmacHex none demoBody (some "sha256=0abc") = false) ∧
    (github_webhook demoHmacHex none demoBody (some "sha256=0abc")
        (some "push") true = Except.error ⟨500, "Webhook processing failed"⟩) ∧
    (verify_signature demoHmacHex (some "secret") demoBody none = false) ∧
    (github_webhook demoHmacHex (some "secret") demoBody none
        (some "push") true = Except.error ⟨500, "Webhook processing failed"⟩) ∧
    (github_webhook demoHmacHex (some "secret") demoBody (some "sha256=0abc")
        (some "push") true = Except.ok (some "push", [QueuedTask.pushTask])) := by
  refine ⟨rfl, rfl, rfl, rfl, rfl, rfl, rfl, rfl⟩

/-- In the FALLBACK state every generation call leaves the flag set,
does not invoke the real backend, and is served by the fallback
backend; a health check can only leave the flag set unless its probe
succeeds. -/
theorem facadeStep_fallback_latched (pyhash : String → Int) (draw : Nat → Nat → Int)
    (ms : MachineState) (op : FacadeOp)
    (h : ms.facade.fallbackActive = true)
    (hop : op ≠ FacadeOp.opHealthCheck (PyResult.returns true)) :
    (facadeStep pyhash draw ms op).1.facade.fallbackActive = true ∧
    (isGenerationOp op = true →
      (facadeStep pyhash draw ms op).2.1 = false ∧
      (facadeStep pyhash draw ms op).2.2 = ServedBy.fallback) := by
  rcases ms with ⟨⟨hr, fa⟩, g⟩
  simp only at h
  subst h
  cases op with
  | opGenerateResponse oc prompt =>
    simp [facadeStep, generate_response, genServedBy]
  | opGenerateEmbeddings oc texts =>
    simp [facadeStep, generate_embeddings, embServedBy]
  | opGenerateSingle oc1 oc2 text =>
    simp [facadeStep, generate_single_embedding, generate_embeddings, firstEmbedding,
      singleServedBy]
  | opHealthCheck probe =>
    rcases probe with _ | b
    · cases hr <;> simp [facadeStep, health_check, isGenerationOp]
    · cases b
      · cases hr <;> simp [facadeStep, health_check, isGenerationOp]
      · exact absurd rfl hop

/-- From the FALLBACK state, the only step that clears the flag is a
health check whose probe of an existing real backend succeeds. -/
theorem facadeStep_reset_only_health (pyhash : String → Int) (draw : Nat → Nat → Int)
    (s : MachineState) (op : FacadeOp)
    (h : s.facade.fallbackActive = true)
    (h2 : (facadeStep pyhash draw s op).1.facade.fallbackActive = false) :
    op = FacadeOp.opHealthCheck (PyResult.returns true) ∧
      s.facade.hasRealService = true := by
  rcases s with ⟨⟨hr, fa⟩, g⟩
  simp only at h
  subst h
  cases op with
  | opGenerateResponse oc prompt =>
    simp [facadeStep, generate_response] at h2
  | opGenerateEmbeddings oc texts =>
    simp [facadeStep, generate_embeddings] at h2
  | opGenerateSingle oc1 oc2 text =>
    simp [facadeStep, generate_single_embedding, generate_embeddings] at h2
  | opHealthCheck probe =>
    rcases probe with _ | b
    · cases hr <;> simp [facadeStep, health_check] at h2
    · cases b
      · cases hr <;> simp [facadeStep, health_check] at h2
      · cases hr
        · simp [facadeStep, health_check] at h2
        · exact ⟨rfl, rfl⟩

/-- C1: once `fallback_active` is true, a trace containing no
successful health check leaves the flag true throughout, every
generation call in the trace is served entirely by the fallback
backend without invoking the real backend, and (third conjunct) the
only single step that can clear the flag from the FALLBACK state is a
health check whose probe of an existing real backend succeeds. -/
theorem facade_fallback_until_health_reset (pyhash : String → Int) (draw : Nat → Nat → Int)
    (ms : MachineState) (ops : List FacadeOp)
    (h : ms.facade.fallbackActive = true)
    (hops : FacadeOp.opHealthCheck (PyResult.returns true) ∉ ops) :
    (facadeRun pyhash draw ms ops).1.facade.fallbackActive = true ∧
    (∀ e ∈ (facadeRun pyhash draw ms ops).2, isGenerationOp e.1 = true →
      (e.2.1 = false ∧ e.2.2 = ServedBy.fallback)) ∧
    (∀ (s : MachineState) (op : FacadeOp), s.facade.fallbackActive = true →
      (facadeStep pyhash draw s op).1.facade.fallbackActive = false →
      (op = FacadeOp.opHealthCheck (PyResult.returns true) ∧
        s.facade.hasRealService = true)) := by
  induction ops generalizing ms with
  | nil =>
    refine ⟨h, ?_, ?_⟩
    · intro e he
      simp [facadeRun] at he
    · intro s op hs h2
      exact facadeStep_reset_only_health pyhash draw s op hs h2
  | cons op ops ih =>
    have hop1 : op ≠ FacadeOp.opHealthCheck (PyResult.returns true) := by
      intro hcontra
      exact hops (hcontra ▸ List.mem_cons_self op ops)
    have hops2 : FacadeOp.opHealthCheck (PyResult.returns true) ∉ ops := by
      intro hcontra
      exact hops (List.mem_cons_of_mem op hcontra)
    have hstep := facadeStep_fallback_latched pyhash draw ms op h hop1
    have hrec := ih (facadeStep pyhash draw ms op).1 hstep.1 hops2
    refine ⟨?_, ?_, hrec.2.2⟩
    · simpa [facadeRun] using hrec.1
    · intro e he hgen
      simp only [facadeRun, List.mem_cons] at he
      rcases he with he | he
      · subst he
        exact hstep.2 hgen
      · exact hrec.2.1 e he hgen

/-- C1 witness: starting in FALLBACK, a generation call and a failing
health check leave the flag set. -/
theorem facade_fallback_until_health_reset_witness :
    (facadeRun demoPyhash demoDraw ⟨⟨true, true⟩, ⟨0, 0⟩⟩
        [FacadeOp.opGenerateResponse (PyResult.returns "a long enough real response") "p",
         FacadeOp.opHealthCheck PyResult.raised]).1.facade.fallbackActive = true := by
  have h := facade_fallback_until_health_reset demoPyhash demoDraw ⟨⟨true, true⟩, ⟨0, 0⟩⟩
      [FacadeOp.opGenerateResponse (PyResult.returns "a long enough real response") "p",
       FacadeOp.opHealthCheck PyResult.raised] rfl (by decide)
  exact h.1

/-- C5 (amended): in the REAL state, a real success with text longer
than 10 characters is returned unchanged and the state stays REAL; a
real exception latches `fallback_active` and the call is served by the
fallback backend; a degenerate real result (text of length ≤ 10, or an
empty list of embedding vectors) is also served by the fallback
backend on this call, but `fallback_active` stays false — the facade
remains in REAL. -/
theorem generate_real_state_transitions (s : FacadeState)
    (hr : s.hasRealService = true) (hf : s.fallbackActive = false) :
    (∀ text prompt, 10 < text.length →
      generate_response s (PyResult.returns text) prompt =
        (GenReturn.fromReal text, s, true)) ∧
    (∀ text prompt, text.length ≤ 10 →
      generate_response s (PyResult.returns text) prompt =
        (GenReturn.fromFallback (generate_fallback_response prompt), s, true)) ∧
    (∀ prompt, generate_response s PyResult.raised prompt =
        (GenReturn.fromFallback (generate_fallback_response prompt),
          ⟨s.hasRealService, true⟩, true)) ∧
    (∀ (pyhash : String → Int) (draw : Nat → Nat → Int) embs texts g,
      embs.isEmpty = false →
      generate_embeddings pyhash draw s (PyResult.returns embs) texts g =
        (EmbReturn.fromReal embs, s, g, true)) ∧
    (∀ (pyhash : String → Int) (draw : Nat → Nat → Int) texts g,
      generate_embeddings pyhash draw s (PyResult.returns []) texts g =
        (EmbReturn.fromFallback (generate_embeddings_fallback pyhash draw texts g).1, s,
          (generate_embeddings_fallback pyhash draw texts g).2, true)) ∧
    (∀ (pyhash : String → Int) (draw : Nat → Nat → Int) texts g,
      generate_embeddings pyhash draw s PyResult.raised texts g =
        (EmbReturn.fromFallback (generate_embeddings_fallback pyhash draw texts g).1,
          ⟨s.hasRealService, true⟩,
          (generate_embeddings_fallback pyhash draw texts g).2, true)) := by
  rcases s with ⟨hr', fa'⟩
  simp only at hr hf
  subst hr
  subst hf
  refine ⟨?_, ?_, ?_, ?_, ?_, ?_⟩
  · intro text prompt hlen
    simp [generate_response, hlen]
  · intro text prompt hlen
    simp [generate_response, Nat.not_lt.mpr hlen]
  · intro prompt
    simp [generate_response]
  · intro pyhash draw embs texts g hne
    simp [generate_embeddings, hne]
  · intro pyhash draw texts g
    simp [generate_embeddings]
  · intro pyhash draw texts g
    simp [generate_embeddings]

/-- C5 witness: in REAL, a long real reply is returned with the state
unchanged, and a real exception latches the flag. -/
theorem generate_real_state_transitions_witness :
    generate_response ⟨true, false⟩ (PyResult.returns "a sufficiently long reply") "p" =
      (GenReturn.fromReal "a sufficiently long reply", ⟨true, false⟩, true) ∧
    generate_response ⟨true, false⟩ PyResult.raised "p" =
      (GenReturn.fromFallback (generate_fallback_response "p"), ⟨true, true⟩, true) := by
  have h := generate_real_state_transitions ⟨true, false⟩ rfl rfl
  exact ⟨h.1 _ _ (by decide), h.2.2.1 "p"⟩

/-- C5 counterexample: in the REAL state a degenerate real result (text
of length ≤ 10) is served from the fallback backend, yet
`fallback_active` remains false — contradicting the claim that the
facade transitions to FALLBACK on a degenerate result. -/
theorem generate_degenerate_keeps_flag_false :
    ("short".length ≤ 10) ∧
    generate_response ⟨true, false⟩ (PyResult.returns "short") "hello" =
      (GenReturn.fromFallback FallbackCategory.general, ⟨true, false⟩, true) ∧
    ((generate_response ⟨true, false⟩ (PyResult.returns "short") "hello").2.1.fallbackActive
      = false) := by
  exact ⟨by decide, rfl, rfl⟩

/-- C2: when the combined lexical+vector primary search raises, the
service makes exactly one retry — a pure lexical multi-field query
with the same query text and fields — and returns its shaped result;
if the retry raises (or its reply lacks the total count the retry path
reads unguarded), the caller gets the empty result set with total 0
and max score 0.  `hybrid_search` is a total function of the backend's
outcomes: it never propagates an exception. -/
theorem hybrid_search_lexical_retry (backend : SearchBody → PyResult ESHitsBlock)
    (query vectorField : String) (textFields : Option (List String))
    (size : Nat) (vectorQuery : Option (List Int))
    (hq : query.isEmpty = false) (hv : pyTruthyVec vectorQuery = true)
    (he : backend (SearchBody.hybridBody size query (textFields.getD default_text_fields)
        vectorField (vectorQuery.getD [])) = PyResult.raised) :
    (hybrid_search backend query vectorField textFields size vectorQuery).2 =
      [SearchBody.hybridBody size query (textFields.getD default_text_fields) vectorField
        (vectorQuery.getD []),
       SearchBody.lexicalBody size query (textFields.getD default_text_fields) vectorField] ∧
    (∀ blk t,
      backend (SearchBody.lexicalBody size query (textFields.getD default_text_fields)
          vectorField) = PyResult.returns blk →
      blk.totalValue = some t →
      (hybrid_search backend query vectorField textFields size vectorQuery).1 =
        ⟨blk.hits, t, blk.maxScore⟩) ∧
    (∀ blk,
      backend (SearchBody.lexicalBody size query (textFields.getD default_text_fields)
          vectorField) = PyResult.returns blk →
      blk.totalValue = none →
      (hybrid_search backend query vectorField textFields size vectorQuery).1 =
        ⟨[], 0, some 0⟩) ∧
    (backend (SearchBody.lexicalBody size query (textFields.getD default_text_fields)
        vectorField) = PyResult.raised →
      (hybrid_search backend query vectorField textFields size vectorQuery).1 =
        ⟨[], 0, some 0⟩) := by
  have hb : primaryBody query vectorField (textFields.getD default_text_fields) size
      vectorQuery =
      SearchBody.hybridBody size query (textFields.getD default_text_fields) vectorField
        (vectorQuery.getD []) := by
    simp [primaryBody, hq, hv]
  refine ⟨?_, ?_, ?_, ?_⟩
  · simp only [hybrid_search]
    rw [hb, he]
    rcases hfb : backend (SearchBody.lexicalBody size query
        (textFields.getD default_text_fields) vectorField) with _ | blk
    · rfl
    · rcases htv : blk.totalValue with _ | t <;> simp [htv]
  · intro blk t hfb ht
    simp only [hybrid_search]
    rw [hb, he, hfb]
    simp [ht]
  · intro blk hfb ht
    simp only [hybrid_search]
    rw [hb, he, hfb]
    simp [ht]
  · intro hfb
    simp only [hybrid_search]
    rw [hb, he, hfb]

/-- C2 witness: against a backend that raises on combined queries and
answers lexical ones, the service calls the combined body then the
lexical retry, and returns the retry's shaped result. -/
theorem hybrid_search_lexical_retry_witness :
    (hybrid_search demoSearchBackend "q" "embedding" none 10 (some [1])).2 =
      [SearchBody.hybridBody 10 "q" default_text_fields "embedding" [1],
       SearchBody.lexicalBody 10 "q" default_text_fields "embedding"] ∧
    (hybrid_search demoSearchBackend "q" "embedding" none 10 (some [1])).1 =
      ⟨[⟨"h1", 3⟩], 7, some 3⟩ := by
  have h := hybrid_search_lexical_retry demoSearchBackend "q" "embedding" none 10
      (some [1]) rfl rfl rfl
  exact ⟨h.1, h.2.1 ⟨[⟨"h1", 3⟩], some 7, some 3⟩ 7 rfl rfl⟩

/-- The effective context type of the bundle `_gather_context` returns. -/
theorem gather_context_contextType (message : String) (ctArg repoUrl : Option String)
    (bk : GatherBackends) :
    (gather_context message ctArg repoUrl bk).1.contextType =
      pyOrStr ctArg (detect_context_type message) := by
  simp only [gather_context]
  split_ifs <;> rfl

/-- The provenance records `_gather_context` accumulates: documentation
records first, then (for idea/inspiration context types) project
records; a step returning no results — in particular a raising backend
— contributes nothing. -/
theorem gather_context_sources (message : String) (ctArg repoUrl : Option String)
    (bk : GatherBackends) :
    (gather_context message ctArg repoUrl bk).1.sources =
      (search_documentation bk.docsOutcome).map mkDocSource ++
      (if (pyOrStr ctArg (detect_context_type message)) == "idea_validation" ||
          (pyOrStr ctArg (detect_context_type message)) == "inspiration" then
        (search_devpost_projects bk.projectsOutcome).map mkProjectSource
       else []) := by
  simp only [gather_context]
  split_ifs with h1 h2 h3 h4 h5 <;>
    simp_all [List.isEmpty_iff]

/-- The retrieval steps `_gather_context` performs: documentation is
always queried; projects only for idea/inspiration context types;
activity only for the progress context type with a truthy repo URL. -/
theorem gather_context_calls (message : String) (ctArg repoUrl : Option String)
    (bk : GatherBackends) :
    (gather_context message ctArg repoUrl bk).2 =
      [GatherCall.docsSearch] ++
      (if (pyOrStr ctArg (detect_context_type message)) == "idea_validation" ||
          (pyOrStr ctArg (detect_context_type message)) == "inspiration" then
        [GatherCall.projectsSearch]
       else []) ++
      (if (pyOrStr ctArg (detect_context_type message)) == "progress" &&
          pyTruthyStr repoUrl then
        [GatherCall.activityFetch]
       else []) := by
  simp only [gather_context]
  split_ifs <;> rfl

/-- C3: a retrieval step that fails with a backend error contributes no
results but never aborts the aggregation — with a raising
documentation backend the bundle still carries the project step's
records in full — and when the effective context type is `progress`
but no repo URL is supplied, no activity query is attempted at all. -/
theorem gather_context_resilient (message : String) (ctArg repoUrl : Option String)
    (bk : GatherBackends) :
    (bk.docsOutcome = PyResult.raised →
      ∀ srec ∈ (gather_context message ctArg repoUrl bk).1.sources,
        srec.stype ≠ "documentation") ∧
    (∀ ps, bk.docsOutcome = PyResult.raised →
      bk.projectsOutcome = PyResult.returns ps →
      ((gather_context message ctArg repoUrl bk).1.contextType = "idea_validation" ∨
       (gather_context message ctArg repoUrl bk).1.contextType = "inspiration") →
      (gather_context message ctArg repoUrl bk).1.sources = ps.map mkProjectSource) ∧
    (GatherCall.docsSearch ∈ (gather_context message ctArg repoUrl bk).2) ∧
    ((GatherCall.projectsSearch ∈ (gather_context message ctArg repoUrl bk).2) ↔
      ((gather_context message ctArg repoUrl bk).1.contextType = "idea_validation" ∨
       (gather_context message ctArg repoUrl bk).1.contextType = "inspiration")) ∧
    ((GatherCall.activityFetch ∈ (gather_context message ctArg repoUrl bk).2) ↔
      ((gather_context message ctArg repoUrl bk).1.contextType = "progress" ∧
        pyTruthyStr repoUrl = true)) := by
  rw [gather_context_contextType]
  refine ⟨?_, ?_, ?_, ?_, ?_⟩
  · intro hdocs srec hmem
    rw [gather_context_sources] at hmem
    rw [hdocs] at hmem
    simp only [search_documentation, List.map_nil, List.nil_append] at hmem
    rcases hcond : ((pyOrStr ctArg (detect_context_type message)) == "idea_validation" ||
        (pyOrStr ctArg (detect_context_type message)) == "inspiration") with _ | _
    · rw [hcond] at hmem
      simp at hmem
    · rw [hcond] at hmem
      simp only [if_true] at hmem
      obtain ⟨p, _, rfl⟩ := List.mem_map.1 hmem
      simp [mkProjectSource]
  · intro ps hdocs hproj hct
    rw [gather_context_sources, hdocs, hproj]
    have hcond : ((pyOrStr ctArg (detect_context_type message)) == "idea_validation" ||
        (pyOrStr ctArg (detect_context_type message)) == "inspiration") = true := by
      rcases hct with hct | hct <;> simp [hct]
    rw [hcond]
    simp [search_documentation, search_devpost_projects]
  · rw [gather_context_calls]
    simp
  · rw [gather_context_calls]
    rcases hcond : ((pyOrStr ctArg (detect_context_type message)) == "idea_validation" ||
        (pyOrStr ctArg (detect_context_type message)) == "inspiration") with _ | _ <;>
      simp_all
  · rw [gather_context_calls]
    rcases hcond : ((pyOrStr ctArg (detect_context_type message)) == "progress" &&
        pyTruthyStr repoUrl) with _ | _ <;>
      simp_all

/-- C3 witness: with a raising documentation backend and an explicit
idea-validation context type, the bundle carries exactly the project
record, and no activity query happens without a repo URL. -/
theorem gather_context_resilient_witness :
    (gather_context "x" (some "idea_validation") none demoGatherBackends).1.sources =
      [mkProjectSource demoProjectHit] ∧
    (GatherCall.activityFetch ∉
      (gather_context "x" (some "idea_validation") none demoGatherBackends).2) := by
  have h := gather_context_resilient "x" (some "idea_validation") none demoGatherBackends
  refine ⟨h.2.1 [demoProjectHit] rfl rfl (Or.inl rfl), ?_⟩
  intro hmem
  have hc := (h.2.2.2.2).1 hmem
  exact absurd hc.2 (by decide)

/-- Merging both indices with successful service calls. -/
theorem collect_both (ps : List ProjectHit) (ds : List DocHit) :
    collect_index_results (PyResult.returns ps) (PyResult.returns ds)
      ["devpost_projects", "hackathon_docs"] =
      ps.map mkDevpostResult ++ ds.map mkDocResult := rfl

/-- C9: for a multi-index search (no explicit index), the per-index
result lists are merged, every returned item carries its originating
index in its `source` field, the merged list is sorted by score
descending (stably, as Python's `list.sort` is) and truncated to the
requested size, and the reported `total` is the pre-truncation merged
count, which can exceed the number of returned results. -/
theorem search_endpoint_merge_sort_truncate (req : SearchRequestModel)
    (ps : List ProjectHit) (ds : List DocHit)
    (hidx : pyTruthyStr req.reqIndex = false) :
    (search_endpoint req (PyResult.returns ps) (PyResult.returns ds)).total =
      (ps.map mkDevpostResult ++ ds.map mkDocResult).length ∧
    (search_endpoint req (PyResult.returns ps) (PyResult.returns ds)).results =
      (List.insertionSort scoreGe (ps.map mkDevpostResult ++ ds.map mkDocResult)).take
        req.reqSize ∧
    (search_endpoint req (PyResult.returns ps) (PyResult.returns ds)).results.length ≤
      req.reqSize ∧
    List.Sorted scoreGe
      (search_endpoint req (PyResult.returns ps) (PyResult.returns ds)).results ∧
    (∀ r ∈ (search_endpoint req (PyResult.returns ps) (PyResult.returns ds)).results,
      (∃ p ∈ ps, r = mkDevpostResult p ∧ r.rsource = "devpost") ∨
      (∃ d ∈ ds, r = mkDocResult d ∧ r.rsource = "documentation")) ∧
    (search_endpoint req (PyResult.returns ps) (PyResult.returns ds)).results.length ≤
      (search_endpoint req (PyResult.returns ps) (PyResult.returns ds)).total := by
  have hresp : search_endpoint req (PyResult.returns ps) (PyResult.returns ds) =
      ⟨(List.insertionSort scoreGe (ps.map mkDevpostResult ++ ds.map mkDocResult)).take
          req.reqSize,
        (ps.map mkDevpostResult ++ ds.map mkDocResult).length, req.reqQuery,
        req.searchType⟩ := by
    simp only [search_endpoint, hidx, Bool.false_eq_true, if_false]
    rw [collect_both]
  rw [hresp]
  have hsortlen : (List.insertionSort scoreGe
      (ps.map mkDevpostResult ++ ds.map mkDocResult)).length =
      (ps.map mkDevpostResult ++ ds.map mkDocResult).length :=
    (List.perm_insertionSort scoreGe _).length_eq
  refine ⟨rfl, rfl, ?_, ?_, ?_, ?_⟩
  · exact List.length_take_le _ _
  · exact List.Pairwise.sublist (List.take_sublist _ _)
      (List.sorted_insertionSort scoreGe _)
  · intro r hr
    have hmem : r ∈ List.insertionSort scoreGe
        (ps.map mkDevpostResult ++ ds.map mkDocResult) :=
      List.mem_of_mem_take hr
    rw [List.mem_insertionSort] at hmem
    rcases List.mem_append.1 hmem with hm | hm
    · obtain ⟨p, hp, rfl⟩ := List.mem_map.1 hm
      exact Or.inl ⟨p, hp, rfl, rfl⟩
    · obtain ⟨d, hd, rfl⟩ := List.mem_map.1 hm
      exact Or.inr ⟨d, hd, rfl, rfl⟩
  · simp only [List.length_take]
    exact le_trans (min_le_right _ _) (le_of_eq hsortlen)

/-- C9 witness: one project and one documentation hit merge to total 2
while only one result is returned at size 1. -/
theorem search_endpoint_merge_sort_truncate_witness :
    (search_endpoint demoSearchReq (PyResult.returns [demoProjectHit])
        (PyResult.returns [demoDocHit])).total = 2 ∧
    (search_endpoint demoSearchReq (PyResult.returns [demoProjectHit])
        (PyResult.returns [demoDocHit])).results.length ≤ 1 := by
  have h := search_endpoint_merge_sort_truncate demoSearchReq [demoProjectHit]
      [demoDocHit] rfl
  exact ⟨h.1.trans (by decide), h.2.2.1⟩
